import Mathlib

/-
Verification development for the exaroton API client library.

The embedding models the request/response translation layer of the client:
the content-type dispatch in Exaroton._make_request, the unwrapping of the
data envelope, the construction of the domain types of types.py, and the
human-readable JSON rendering produced by ExarotonType.default together
with json.dumps.

Python values that flow through the client are modelled by the inductive
type PyVal; fallible Python code is modelled in the Except monad over an
inductive of the exception kinds the source can raise.  An HTTP exchange is
modelled by a transport function from requests to responses; a response
carries its declared content type together with the byte body and its two
decodings (the parsed JSON structure and the UTF-8 text), so that the
dispatch can be stated without re-implementing a JSON or UTF-8 parser.
Every client method returns, next to its result, the list of HTTP requests
it issued.
-/

namespace Exaroton

/-- JSON structures, as produced by json.loads on the wire payloads of this
API (numbers of the payloads in scope are integers). -/
inductive Json where
  | null
  | bool (b : Bool)
  | num (n : Int)
  | str (s : String)
  | arr (xs : List Json)
  | obj (kvs : List (String × Json))
deriving Repr

/-- Python run-time values produced and consumed by the client layer:
None, scalars, bytes, lists, dicts with string keys, and class instances
(class name together with the ordered attribute dict). -/
inductive PyVal where
  | none
  | bool (b : Bool)
  | int (n : Int)
  | str (s : String)
  | bytes (bs : List Nat)
  | pylist (xs : List PyVal)
  | dict (kvs : List (String × PyVal))
  | obj (cls : String) (attrs : List (String × PyVal))
deriving Repr

/-- Exception kinds raised by the source code paths in scope. -/
inductive Err where
  | keyError (k : String)
  | typeError (msg : String)
  | attributeError (name : String)
  | notImplementedError (msg : String)
deriving Repr, DecidableEq

/-- An HTTP request issued by the client: verb, path relative to the API
host, and the optional JSON body passed via the json keyword. -/
structure Request where
  method : String
  path : String
  body : Option Json
deriving Repr

/-- An HTTP response as observed by _make_request: the declared
content-type header, the raw byte body (req.content), and its two
decodings used by the source, req.json() and the UTF-8 text. -/
structure Resp where
  contentType : String
  jsonBody : Json
  textBody : String
  content : List Nat
deriving Repr

/-- A transport turns a request into a response; it stands for the
requests.Session call inside _make_request. -/
def Transport := Request → Resp

mutual

/-- Conversion of a parsed JSON structure into the Python value json.loads
yields: null becomes None, objects become dicts, arrays become lists. -/
def jsonToPy : Json → PyVal
  | .null => .none
  | .bool b => .bool b
  | .num n => .int n
  | .str s => .str s
  | .arr xs => .pylist (jsonArrToPy xs)
  | .obj kvs => .dict (jsonObjToPy kvs)

/-- Elementwise conversion of a JSON array. -/
def jsonArrToPy : List Json → List PyVal
  | [] => []
  | x :: xs => jsonToPy x :: jsonArrToPy xs

/-- Entrywise conversion of a JSON object. -/
def jsonObjToPy : List (String × Json) → List (String × PyVal)
  | [] => []
  | (k, v) :: rest => (k, jsonToPy v) :: jsonObjToPy rest

end

/-- Content-type dispatch of Exaroton._make_request, lines 40 to 54 of
exaroton.py: application/json yields the parsed structure, the exact
header text/plain;charset=UTF-8 yields the UTF-8 decoded string,
application/octet-stream and image/png yield the raw bytes, and any other
content type falls off the if/elif chain, so the Python function returns
None. -/
def decodeResp (r : Resp) : PyVal :=
  if r.contentType = "application/json" then jsonToPy r.jsonBody
  else if r.contentType = "text/plain;charset=UTF-8" then .str r.textBody
  else if r.contentType = "application/octet-stream" then .bytes r.content
  else if r.contentType = "image/png" then .bytes r.content
  else .none

/-- Exaroton._make_request: issue one HTTP request through the session and
decode the body by the declared content type.  The issued request is
recorded.  No status-code branching exists in the source. -/
def _make_request (t : Transport) (path : String) (method : String)
    (body : Option Json) : Except Err PyVal × List Request :=
  let req : Request := ⟨method, path, body⟩
  (.ok (decodeResp (t req)), [req])

/-- Python subscription v[k] with a string key: dict lookup raising
KeyError when the key is missing, TypeError on non-dict values. -/
def pyIndex : PyVal → String → Except Err PyVal
  | .dict kvs, k =>
    match kvs.lookup k with
    | some v => .ok v
    | Option.none => .error (.keyError k)
  | _, _ => .error (.typeError "value is not subscriptable by a string key")

/-- Attribute read on a class instance, used to observe constructed domain
objects. -/
def pyGetAttr : PyVal → String → Option PyVal
  | .obj _ attrs, k => attrs.lookup k
  | _, _ => Option.none

/-- The module-level _status_map of types.py, lines 4 to 15: the fixed
translation table from integer server status codes to labels. -/
def statusMap : List (Int × String) :=
  [(0, "Offline"), (1, "Online"), (2, "Starting"), (3, "Stopping"),
   (4, "Restarting"), (5, "Saving"), (6, "Loading"), (7, "Crashed"),
   (8, "Pending"), (10, "Preparing")]

/-- Table lookup _status_map.get on an integer code. -/
def statusLookup (n : Int) : Option String :=
  statusMap.lookup n

/-- The value _status_map.get(status) stored by Server.__init__: an
integer key is looked up in the table and an absent entry gives None; a
key of any other hashable run-time type is simply not in the table, so
dict.get returns None; an unhashable key (a list or a dict) makes
dict.get raise TypeError. -/
def statusGet : PyVal → Except Err PyVal
  | .int n =>
    .ok (match statusLookup n with
         | some label => .str label
         | Option.none => .none)
  | .pylist _ => .error (.typeError "unhashable type used as a dict key")
  | .dict _ => .error (.typeError "unhashable type used as a dict key")
  | _ => .ok .none

/-- Keyword expansion SomeClass(**d) against a parameter list without
defaults: d must be a dict, every parameter must be present and no other
key may appear, else Python raises TypeError. -/
def kwargsExact (params : List String) (v : PyVal) :
    Except Err (List (String × PyVal)) :=
  match v with
  | .dict kvs =>
    if params.all (fun p => (kvs.lookup p).isSome) &&
       kvs.all (fun kv => params.contains kv.1) then
      .ok kvs
    else
      .error (.typeError "keyword arguments do not match the parameters")
  | _ => .error (.typeError "argument after ** must be a mapping")

/-- Lookup of a bound keyword argument inside a constructor body. -/
def kwGet (kvs : List (String × PyVal)) (k : String) : PyVal :=
  (kvs.lookup k).getD .none

/-- Players.__init__ of types.py: stores max, count and list verbatim. -/
def playersNew (v : PyVal) : Except Err PyVal := do
  let kw ← kwargsExact ["max", "count", "list"] v
  .ok (.obj "Players"
    [("max", kwGet kw "max"), ("count", kwGet kw "count"),
     ("list", kwGet kw "list")])

/-- Software.__init__ of types.py: stores id, name and version verbatim. -/
def softwareNew (v : PyVal) : Except Err PyVal := do
  let kw ← kwargsExact ["id", "name", "version"] v
  .ok (.obj "Software"
    [("id", kwGet kw "id"), ("name", kwGet kw "name"),
     ("version", kwGet kw "version")])

/-- Server.__init__ of types.py, lines 81 to 103: scalar fields are stored
verbatim, status is translated through _status_map.get, and the players
and software payloads are expanded into nested Players and Software
instances.  Attributes appear in assignment order. -/
def serverNew (v : PyVal) : Except Err PyVal := do
  let kw ← kwargsExact
    ["id", "name", "address", "motd", "status", "host", "port",
     "players", "software", "shared"] v
  let status ← statusGet (kwGet kw "status")
  let players ← playersNew (kwGet kw "players")
  let software ← softwareNew (kwGet kw "software")
  .ok (.obj "Server"
    [("id", kwGet kw "id"), ("name", kwGet kw "name"),
     ("address", kwGet kw "address"), ("motd", kwGet kw "motd"),
     ("status", status), ("host", kwGet kw "host"),
     ("port", kwGet kw "port"), ("players", players),
     ("software", software), ("shared", kwGet kw "shared")])

/-- Account.__init__ of types.py: stores its four fields verbatim. -/
def accountNew (v : PyVal) : Except Err PyVal := do
  let kw ← kwargsExact ["name", "email", "verified", "credits"] v
  .ok (.obj "Account"
    [("name", kwGet kw "name"), ("email", kwGet kw "email"),
     ("verified", kwGet kw "verified"), ("credits", kwGet kw "credits")])

/-- Logs.__init__ of types.py: stores id, url and raw verbatim. -/
def logsNew (v : PyVal) : Except Err PyVal := do
  let kw ← kwargsExact ["id", "url", "raw"] v
  .ok (.obj "Logs"
    [("id", kwGet kw "id"), ("url", kwGet kw "url"),
     ("raw", kwGet kw "raw")])

/-- The classes that the module types.py actually defines (its top-level
class statements, in source order). -/
inductive TypesClass where
  | list
  | exarotonType
  | account
  | server
  | software
  | players
  | logs
deriving Repr, DecidableEq

/-- The attribute table of the module types.py: name to class.  No other
public attribute is defined by the module; in particular neither
CreditPool nor CreditPoolMember appears in the source. -/
def typesModuleClasses : List (String × TypesClass) :=
  [("List", .list), ("ExarotonType", .exarotonType), ("Account", .account),
   ("Server", .server), ("Software", .software), ("Players", .players),
   ("Logs", .logs)]

/-- Attribute access types.NAME as performed by the client methods:
a name the module does not define raises AttributeError. -/
def typesGetattr (name : String) : Except Err TypesClass :=
  match typesModuleClasses.lookup name with
  | some c => .ok c
  | Option.none => .error (.attributeError name)

/-- Constructor dispatch CLASS(**item) for the domain classes that take a
single expanded payload.  List takes an iterable instead, and the
ExarotonType base constructor takes no payload; the client never calls
either with **item, so both raise TypeError here exactly as Python would
for the mismatched arguments. -/
def classNew : TypesClass → PyVal → Except Err PyVal
  | .account, v => accountNew v
  | .server, v => serverNew v
  | .software, v => softwareNew v
  | .players, v => playersNew v
  | .logs, v => logsNew v
  | .list, _ => .error (.typeError "keyword arguments do not match the parameters")
  | .exarotonType, _ => .error (.typeError "keyword arguments do not match the parameters")

/-- Attribute lookup of a class in types followed by construction from one
payload item, as in the expression types.CreditPool(**data). -/
def getattrThenNew (clsName : String) (item : PyVal) : Except Err PyVal := do
  let cls ← typesGetattr clsName
  classNew cls item

/-- Iteration over the unwrapped data payload by a generator expression;
the wire payloads in scope are JSON arrays, so any non-list value raises
TypeError on iteration here. -/
def asIterList : PyVal → Except Err (List PyVal)
  | .pylist xs => .ok xs
  | _ => .error (.typeError "value is not iterable")

/-- Exaroton.get_server: GET servers/ID, unwrap the data envelope and
construct a Server from the payload. -/
def get_server (t : Transport) (id : String) :
    Except Err PyVal × List Request :=
  let (r, log) := _make_request t ("servers/" ++ id) "get" Option.none
  ((do
      let v ← r
      let d ← pyIndex v "data"
      getattrThenNew "Server" d), log)

/-- Exaroton.get_file_data: GET servers/ID/files/data/PATH; the decoded
body is returned without unwrapping. -/
def get_file_data (t : Transport) (id : String) (path : String) :
    Except Err PyVal × List Request :=
  _make_request t ("servers/" ++ id ++ "/files/data/" ++ path) "get"
    Option.none

/-- Exaroton.write_file_data, lines 259 to 263 of exaroton.py: the body
raises NotImplementedError before any other statement runs; the request
line below it is commented out in the source, so no HTTP request is ever
issued. -/
def write_file_data (t : Transport) (id : Option String)
    (path : Option String) (data : Option PyVal) :
    Except Err PyVal × List Request :=
  (.error (.notImplementedError "This method hasn\x27t been implemented yet"),
   [])

/-- Exaroton.start: POST servers/ID/start, returning the decoded reply of
_make_request directly, with no envelope unwrapping. -/
def start (t : Transport) (id : String) : Except Err PyVal × List Request :=
  _make_request t ("servers/" ++ id ++ "/start") "post" Option.none

/-- Exaroton.stop: POST servers/ID/stop, returning the decoded reply of
_make_request directly, with no envelope unwrapping. -/
def stop (t : Transport) (id : String) : Except Err PyVal × List Request :=
  _make_request t ("servers/" ++ id ++ "/stop") "post" Option.none

/-- Exaroton.restart: POST servers/ID/restart, returning the decoded reply
of _make_request directly, with no envelope unwrapping. -/
def restart (t : Transport) (id : String) :
    Except Err PyVal × List Request :=
  _make_request t ("servers/" ++ id ++ "/restart") "post" Option.none

/-- Exaroton.command, lines 173 to 186 of exaroton.py: POST
servers/ID/command with the command in the JSON body; the source indexes
the reply with the data key before returning it. -/
def command (t : Transport) (id : String) (cmd : String) :
    Except Err PyVal × List Request :=
  let (r, log) := _make_request t ("servers/" ++ id ++ "/command") "post"
    (some (.obj [("command", .str cmd)]))
  ((do
      let v ← r
      pyIndex v "data"), log)

/-- Exaroton.get_credit_pools, lines 269 to 276 of exaroton.py: GET
billing/pools, unwrap the data envelope, then build
types.List(types.CreditPool(**data) for data in payload).  The attribute
access types.CreditPool happens lazily inside the generator, once per
item. -/
def get_credit_pools (t : Transport) :
    Except Err PyVal × List Request :=
  let (r, log) := _make_request t "billing/pools" "get" Option.none
  ((do
      let v ← r
      let d ← pyIndex v "data"
      let items ← asIterList d
      let objs ← items.mapM (getattrThenNew "CreditPool")
      .ok (.pylist objs)), log)

/-- Exaroton.get_credit_pool: GET billing/pools/ID, unwrap the data
envelope and construct types.CreditPool(**payload) directly. -/
def get_credit_pool (t : Transport) (id : String) :
    Except Err PyVal × List Request :=
  let (r, log) := _make_request t ("billing/pools/" ++ id) "get" Option.none
  ((do
      let v ← r
      let d ← pyIndex v "data"
      getattrThenNew "CreditPool" d), log)

/-- Exaroton.get_credit_pool_members: GET billing/pools/ID/members, unwrap
the data envelope and build a types.List of types.CreditPoolMember items
through the same lazy generator shape as get_credit_pools. -/
def get_credit_pool_members (t : Transport) (id : String) :
    Except Err PyVal × List Request :=
  let (r, log) := _make_request t ("billing/pools/" ++ id ++ "/members")
    "get" Option.none
  ((do
      let v ← r
      let d ← pyIndex v "data"
      let items ← asIterList d
      let objs ← items.mapM (getattrThenNew "CreditPoolMember")
      .ok (.pylist objs)), log)

/-- The identity test value is None of Python. -/
def isNoneVal : PyVal → Bool
  | .none => true
  | _ => false

/-- The attribute-name test x.startswith applied to the one-character
underscore, as in the filter of ExarotonType.default: true exactly when
the first character of the name is an underscore (code 95). -/
def pyStartsWithUnderscore (s : String) : Bool :=
  match s.data with
  | [] => false
  | c :: _ => c == Char.ofNat 95

/-- The single-quote character, code 39. -/
def quoteChar : Char := Char.ofNat 39

/-- The double-quote character, code 34. -/
def dquoteChar : Char := Char.ofNat 34

/-- One lowercase hexadecimal digit. -/
def hexDigit (n : Nat) : Char :=
  if n < 10 then Char.ofNat (48 + n) else Char.ofNat (87 + (n % 16))

/-- Rendering of one byte inside repr(b) of a bytes value with the chosen
quote character q: backslash and the quote are escaped, tab, newline and
carriage return use their short escapes, other printable ASCII is kept,
everything else becomes a two-digit hex escape. -/
def byteEscape (q : Nat) (b : Nat) : String :=
  if b = 92 then "\\\\"
  else if b = q then "\\" ++ String.singleton (Char.ofNat q)
  else if b = 9 then "\\t"
  else if b = 10 then "\\n"
  else if b = 13 then "\\r"
  else if 32 ≤ b && b < 127 then String.singleton (Char.ofNat b)
  else "\\x" ++ String.singleton (hexDigit (b / 16 % 16)) ++
       String.singleton (hexDigit (b % 16))

/-- Python repr of a bytes value, the marker ExarotonType.default
substitutes for raw byte fields: a b prefix, then the body between
quotes.  Single quotes are used unless the bytes contain a single quote
and no double quote. -/
def pyReprBytes (bs : List Nat) : String :=
  let q : Nat := if bs.contains 39 && !bs.contains 34 then 34 else 39
  "b" ++ String.singleton (Char.ofNat q) ++
    String.join (bs.map (byteEscape q)) ++ String.singleton (Char.ofNat q)

mutual

/-- The human-readable rendering json.dumps(self, default=
ExarotonType.default) produces, as a JSON structure.  Scalars, lists and
dicts are serialized natively by json.dumps; a bytes value is not JSON
serializable, so default substitutes repr(bytes); a class instance is not
JSON serializable either, so default substitutes a dict holding the class
name under the key _ followed by the attribute dict filtered as in
types.py lines 40 to 47: names starting with an underscore are dropped
and so is every attribute whose value is None. -/
def render : PyVal → Json
  | .none => .null
  | .bool b => .bool b
  | .int n => .num n
  | .str s => .str s
  | .bytes bs => .str (pyReprBytes bs)
  | .pylist xs => .arr (renderList xs)
  | .dict kvs => .obj (renderKVs kvs)
  | .obj cls attrs => .obj (("_", .str cls) :: renderObjFields attrs)

/-- Elementwise rendering of a Python list (types.List included, since
json.dumps serializes list subclasses as arrays). -/
def renderList : List PyVal → List Json
  | [] => []
  | x :: xs => render x :: renderList xs

/-- Entrywise rendering of a plain dict: no filtering happens here, the
filter of ExarotonType.default applies only to instance attributes. -/
def renderKVs : List (String × PyVal) → List (String × Json)
  | [] => []
  | (k, v) :: rest => (k, render v) :: renderKVs rest

/-- The attribute filter of ExarotonType.default: an attribute whose name
starts with an underscore, or whose value is None, is omitted; every
other attribute is rendered in place. -/
def renderObjFields : List (String × PyVal) → List (String × Json)
  | [] => []
  | (k, v) :: rest =>
    if pyStartsWithUnderscore k || isNoneVal v then renderObjFields rest
    else (k, render v) :: renderObjFields rest

end

/-- The entry list of a rendered JSON object. -/
def fieldsOf : Json → List (String × Json)
  | .obj kvs => kvs
  | _ => []

/-- Number of entries under a given key in a rendered JSON object. -/
def countKey (j : Json) (k : String) : Nat :=
  ((fieldsOf j).filter (fun kv => kv.1 == k)).length

/-- Spec-side status table, transcribed from the fixed table of the
specification (0=Offline, 1=Online, 2=Starting, 3=Stopping, 4=Restarting,
5=Saving, 6=Loading, 7=Crashed, 8=Pending, 10=Preparing; any other
integer has no label), to be compared with the lookup the code
performs. -/
def specStatusLabel (n : Int) : Option String :=
  if n = 0 then some "Offline"
  else if n = 1 then some "Online"
  else if n = 2 then some "Starting"
  else if n = 3 then some "Stopping"
  else if n = 4 then some "Restarting"
  else if n = 5 then some "Saving"
  else if n = 6 then some "Loading"
  else if n = 7 then some "Crashed"
  else if n = 8 then some "Pending"
  else if n = 10 then some "Preparing"
  else Option.none

/-- A well-formed Server wire payload, with every field value free: the
exact key set Server.__init__ expects, with the players and software
sub-payloads shaped for Players.__init__ and Software.__init__. -/
def mkServerPayload (id name address motd status host port : PyVal)
    (pmax pcount plist : PyVal) (sid sname sversion : PyVal)
    (shared : PyVal) : PyVal :=
  .dict [("id", id), ("name", name), ("address", address), ("motd", motd),
         ("status", status), ("host", host), ("port", port),
         ("players", .dict [("max", pmax), ("count", pcount),
                            ("list", plist)]),
         ("software", .dict [("id", sid), ("name", sname),
                             ("version", sversion)]),
         ("shared", shared)]

/-- The concrete wire payload of the specification example for
getServer("abc123"). -/
def c8json : Json :=
  .obj [("data", .obj [
    ("id", .str "abc123"), ("name", .str "MyServer"),
    ("address", .str "mc.example.com"), ("motd", .str "hi"),
    ("status", .num 1), ("host", .str "1.2.3.4"), ("port", .num 25565),
    ("players", .obj [("max", .num 20), ("count", .num 3),
      ("list", .arr [.str "a", .str "b", .str "c"])]),
    ("software", .obj [("id", .str "vanilla"), ("name", .str "Vanilla"),
      ("version", .str "1.20")]),
    ("shared", .bool false)])]

/-- A transport answering every request with the example payload as
application/json. -/
def t8 : Transport := fun _ => ⟨"application/json", c8json, "", []⟩

/-- A transport answering with a one-element billing pools listing. -/
def tPools : Transport := fun _ =>
  ⟨"application/json",
   .obj [("data", .arr [.obj [("id", .str "p1"), ("name", .str "pool one"),
                              ("credits", .num 100)]])], "", []⟩

/-- A transport answering with a single billing pool object. -/
def tPool : Transport := fun _ =>
  ⟨"application/json",
   .obj [("data", .obj [("id", .str "p1"), ("name", .str "pool one"),
                        ("credits", .num 100)])], "", []⟩

/-- A transport answering every request with an HTML page, a content type
outside the recognized set of the dispatch. -/
def tHtml : Transport := fun _ =>
  ⟨"text/html", .null, "<html></html>",
   [60, 104, 116, 109, 108, 62]⟩

/-- A transport answering the command endpoint with the enveloped JSON
reply holding ok under the data key. -/
def tCmd : Transport := fun _ =>
  ⟨"application/json", .obj [("data", .str "ok")], "", []⟩

/-- The successful value of a client call, if any. -/
def okValue : Except Err PyVal → Option PyVal
  | .ok v => some v
  | .error _ => Option.none

/-- Helper lemma: the table lookup of types.py agrees with the fixed
status table of the specification on every integer. -/
theorem statusLookup_eq_spec (n : Int) : statusLookup n = specStatusLabel n := by
  rcases eq_or_ne n 0 with rfl | h0
  · rfl
  rcases eq_or_ne n 1 with rfl | h1
  · rfl
  rcases eq_or_ne n 2 with rfl | h2
  · rfl
  rcases eq_or_ne n 3 with rfl | h3
  · rfl
  rcases eq_or_ne n 4 with rfl | h4
  · rfl
  rcases eq_or_ne n 5 with rfl | h5
  · rfl
  rcases eq_or_ne n 6 with rfl | h6
  · rfl
  rcases eq_or_ne n 7 with rfl | h7
  · rfl
  rcases eq_or_ne n 8 with rfl | h8
  · rfl
  rcases eq_or_ne n 10 with rfl | h10
  · rfl
  simp [statusLookup, statusMap, List.lookup, specStatusLabel,
        h0, h1, h2, h3, h4, h5, h6, h7, h8, h10,
        beq_eq_false_iff_ne.mpr h0, beq_eq_false_iff_ne.mpr h1,
        beq_eq_false_iff_ne.mpr h2, beq_eq_false_iff_ne.mpr h3,
        beq_eq_false_iff_ne.mpr h4, beq_eq_false_iff_ne.mpr h5,
        beq_eq_false_iff_ne.mpr h6, beq_eq_false_iff_ne.mpr h7,
        beq_eq_false_iff_ne.mpr h8, beq_eq_false_iff_ne.mpr h10]

/-- Helper lemma: a key that does not start with an underscore is not the
marker key. -/
theorem ne_marker_of_not_underscore (k : String)
    (hk : pyStartsWithUnderscore k = false) : k ≠ "_" := by
  intro h
  subst h
  exact absurd hk (by decide)

/-- Helper lemma: a key absent from the attribute dict is absent from the
filtered rendering. -/
theorem renderObjFields_not_mem (k : String)
    (attrs : List (String × PyVal)) (h : k ∉ attrs.map Prod.fst) :
    (renderObjFields attrs).filter (fun kv => kv.1 == k) = [] ∧
    (renderObjFields attrs).lookup k = Option.none := by
  induction attrs with
  | nil => simp [renderObjFields]
  | cons a rest ih =>
    obtain ⟨k0, v0⟩ := a
    simp only [List.map_cons, List.mem_cons, not_or] at h
    obtain ⟨hne, hrest⟩ := h
    have ih2 := ih hrest
    simp only [renderObjFields]
    split
    · exact ih2
    · have hb : (k0 == k) = false := beq_eq_false_iff_ne.mpr (Ne.symm hne)
      constructor
      · simp [List.filter_cons, hb, ih2.1]
      · simp [List.lookup, beq_eq_false_iff_ne.mpr hne, ih2.2]

/-- Helper lemma: an attribute with a non-underscore name and a non-None
value is rendered exactly once, under its own key, with its rendered
value, provided the attribute names are distinct as in a Python instance
dict. -/
theorem renderObjFields_of_mem (k : String) (v : PyVal)
    (attrs : List (String × PyVal)) (hnd : (attrs.map Prod.fst).Nodup)
    (hmem : (k, v) ∈ attrs) (hk : pyStartsWithUnderscore k = false)
    (hv : isNoneVal v = false) :
    (renderObjFields attrs).filter (fun kv => kv.1 == k) = [(k, render v)] ∧
    (renderObjFields attrs).lookup k = some (render v) := by
  induction attrs with
  | nil => cases hmem
  | cons a rest ih =>
    obtain ⟨k0, v0⟩ := a
    simp only [List.map_cons, List.nodup_cons] at hnd
    obtain ⟨hk0, hndr⟩ := hnd
    rcases List.mem_cons.mp hmem with heq | hmr
    · cases heq
      have hnot := renderObjFields_not_mem k rest hk0
      simp only [renderObjFields, hk, hv, Bool.or_self, Bool.false_eq_true,
        if_false]
      constructor
      · simp [List.filter_cons, hnot.1]
      · simp [List.lookup]
    · have hne : k0 ≠ k := by
        intro he
        subst he
        exact hk0 (List.mem_map.mpr ⟨(k0, v), hmr, rfl⟩)
      have ih2 := ih hndr hmr
      simp only [renderObjFields]
      split
      · exact ih2
      · constructor
        · simp [List.filter_cons, beq_eq_false_iff_ne.mpr hne, ih2.1]
        · simp [List.lookup, beq_eq_false_iff_ne.mpr (Ne.symm hne), ih2.2]

/-- Helper lemma: if every attribute under a key has value None, nothing
is rendered under that key. -/
theorem renderObjFields_filter_eq_nil (k : String)
    (attrs : List (String × PyVal))
    (h : ∀ p ∈ attrs, p.1 = k → isNoneVal p.2 = true) :
    (renderObjFields attrs).filter (fun kv => kv.1 == k) = [] := by
  induction attrs with
  | nil => simp [renderObjFields]
  | cons a rest ih
  => obtain ⟨k0, v0⟩ := a
     have hrest : ∀ p ∈ rest, p.1 = k → isNoneVal p.2 = true :=
       fun p hp => h p (List.mem_cons_of_mem _ hp)
     simp only [renderObjFields]
     split
     · exact ih hrest
     · rename_i hcond
       simp only [Bool.or_eq_true, not_or, Bool.not_eq_true] at hcond
       have hne : k0 ≠ k := by
         intro he
         have := h (k0, v0) (List.mem_cons_self _ _) he
         rw [this] at hcond
         exact Bool.false_ne_true hcond.2.symm
       simp [List.filter_cons, beq_eq_false_iff_ne.mpr hne, ih hrest]

/-- Helper lemma: with distinct attribute names, two attributes under the
same key coincide. -/
theorem attr_value_unique (k : String) (v : PyVal) (p : String × PyVal)
    (attrs : List (String × PyVal)) (hnd : (attrs.map Prod.fst).Nodup)
    (hmem : (k, v) ∈ attrs) (hp : p ∈ attrs) (hpk : p.1 = k) :
    p.2 = v := by
  induction attrs with
  | nil => cases hmem
  | cons a rest ih
  => simp only [List.map_cons, List.nodup_cons] at hnd
     obtain ⟨ha, hndr⟩ := hnd
     rcases List.mem_cons.mp hmem with heq | hmr
     · cases heq
       rcases List.mem_cons.mp hp with rfl | hpr
       · rfl
       · exact absurd (List.mem_map.mpr ⟨p, hpr, hpk⟩) ha
     · rcases List.mem_cons.mp hp with rfl | hpr
       · rw [hpk] at ha
         exact absurd (List.mem_map.mpr ⟨(k, v), hmr, rfl⟩) ha
       · exact ih hndr hmr hpr

/-- Claim C1, counterexample: the claim says a text/plain content type
with any charset parameter decodes to the body string, but the dispatch
compares against the exact header text/plain;charset=UTF-8, so a response
declaring text/plain;charset=ISO-8859-1 with body text hi decodes to None
instead of the string hi. -/
theorem C1_counterexample :
    decodeResp ⟨"text/plain;charset=ISO-8859-1", Json.null, "hi", [104, 105]⟩
      = PyVal.none
    ∧ PyVal.none ≠ PyVal.str "hi" :=
  ⟨rfl, by simp⟩

/-- Claim C1 as amended: decoding is chosen solely by the declared content
type; application/json yields the parsed JSON structure, the exact header
text/plain;charset=UTF-8 yields the decoded body string, and
application/octet-stream or image/png yield the raw bytes; every other
content type, any other text/plain variant included, yields None. -/
theorem C1_amended :
    (∀ jb tb rb, decodeResp ⟨"application/json", jb, tb, rb⟩ = jsonToPy jb)
    ∧ (∀ jb tb rb,
        decodeResp ⟨"text/plain;charset=UTF-8", jb, tb, rb⟩ = PyVal.str tb)
    ∧ (∀ jb tb rb,
        decodeResp ⟨"application/octet-stream", jb, tb, rb⟩ = PyVal.bytes rb)
    ∧ (∀ jb tb rb, decodeResp ⟨"image/png", jb, tb, rb⟩ = PyVal.bytes rb)
    ∧ (∀ ct jb tb rb,
        ct ∉ (["application/json", "text/plain;charset=UTF-8",
               "application/octet-stream", "image/png"] : List String) →
        decodeResp ⟨ct, jb, tb, rb⟩ = PyVal.none) := by
  refine ⟨fun jb tb rb => rfl, fun jb tb rb => rfl, fun jb tb rb => rfl,
    fun jb tb rb => rfl, ?_⟩
  intro ct jb tb rb h
  simp only [List.mem_cons, List.not_mem_nil, or_false, not_or] at h
  obtain ⟨h1, h2, h3, h4⟩ := h
  simp [decodeResp, h1, h2, h3, h4]

/-- Claim C1, witness for the amended theorem at concrete inputs: an
unknown content type decodes to None and a JSON content type decodes to
the parsed structure. -/
theorem C1_amended_witness :
    decodeResp ⟨"text/html", Json.null, "x", [1]⟩ = PyVal.none
    ∧ decodeResp ⟨"application/json", Json.num 3, "", []⟩ =
        jsonToPy (Json.num 3) :=
  ⟨C1_amended.2.2.2.2 "text/html" Json.null "x" [1] (by decide),
   C1_amended.1 (Json.num 3) "" []⟩

/-- Claim C2, counterexample: for a response with the unrecognized content
type text/html, the dispatch does not fail with an unsupported content
type error; it falls off the if/elif chain and returns None successfully,
both at the dispatch itself and through a client method. -/
theorem C2_counterexample :
    (_make_request tHtml "account" "get" Option.none).1 = Except.ok PyVal.none
    ∧ (get_file_data tHtml "srv1" "server-icon.png").1 = Except.ok PyVal.none :=
  ⟨rfl, rfl⟩

/-- Claim C2 as amended: for every response whose declared content type is
outside the recognized set, the dispatch routine completes without error
and returns the absent value None, never undefined or partially-decoded
data. -/
theorem C2_amended (t : Transport) (path method : String) (body : Option Json)
    (h : (t ⟨method, path, body⟩).contentType ∉
      (["application/json", "text/plain;charset=UTF-8",
        "application/octet-stream", "image/png"] : List String)) :
    _make_request t path method body =
      (Except.ok PyVal.none, [⟨method, path, body⟩]) := by
  simp only [List.mem_cons, List.not_mem_nil, or_false, not_or] at h
  obtain ⟨h1, h2, h3, h4⟩ := h
  simp [_make_request, decodeResp, h1, h2, h3, h4]

/-- Claim C2, witness: the amended theorem applied to the HTML-answering
transport. -/
theorem C2_amended_witness :
    _make_request tHtml "account" "get" Option.none =
      (Except.ok PyVal.none, [⟨"get", "account", Option.none⟩]) :=
  C2_amended tHtml "account" "get" Option.none (by decide)

/-- Claim C3, code bug: exaroton.py declares that the billing methods
return CreditPool and CreditPoolMember objects, but types.py defines no
class of either name, so the attribute accesses types.CreditPool and
types.CreditPoolMember raise AttributeError and every billing call that
receives a non-empty payload fails instead of producing domain objects. -/
theorem C3_code_bug :
    typesGetattr "CreditPool" = Except.error (Err.attributeError "CreditPool")
    ∧ typesGetattr "CreditPoolMember" =
        Except.error (Err.attributeError "CreditPoolMember")
    ∧ (get_credit_pools tPools).1 =
        Except.error (Err.attributeError "CreditPool")
    ∧ (get_credit_pool tPool "p1").1 =
        Except.error (Err.attributeError "CreditPool")
    ∧ (get_credit_pool_members tPools "p1").1 =
        Except.error (Err.attributeError "CreditPoolMember") :=
  ⟨rfl, rfl, rfl, rfl, rfl⟩

/-- Claim C4: constructing a Server from a well-formed payload with any
integer status code stores under status exactly the label of the fixed
table of the specification, and the absent value None for every integer
outside the table; the stored value is never the raw numeric code. -/
theorem C4_status_table (n : Int)
    (id name address motd host port : PyVal)
    (pmax pcount plist sid sname sversion shared : PyVal) :
    ∃ s, serverNew (mkServerPayload id name address motd (PyVal.int n) host
        port pmax pcount plist sid sname sversion shared) = Except.ok s
      ∧ pyGetAttr s "status" = some (match specStatusLabel n with
          | some label => PyVal.str label
          | Option.none => PyVal.none) := by
  refine ⟨_, rfl, ?_⟩
  rw [← statusLookup_eq_spec n]
  rfl

/-- Claim C5: for all argument values the write-file operation fails
immediately with the NotImplementedError of the source and records no
HTTP request at all. -/
theorem C5_not_implemented (t : Transport) (id path : Option String)
    (data : Option PyVal) :
    write_file_data t id path data =
      (Except.error (Err.notImplementedError
        "This method hasn\x27t been implemented yet"), []) :=
  rfl

/-- Claim C6, counterexample: the claim says command passes the decoded
wire reply through as-is, but for a command reply that is a JSON object
with an ok string under the data key, command returns the unwrapped
string, not the enveloping dict the dispatcher decoded. -/
theorem C6_counterexample :
    (command tCmd "srv1" "say hi").1 = Except.ok (PyVal.str "ok")
    ∧ decodeResp (tCmd ⟨"post", "servers/srv1/command",
        some (Json.obj [("command", Json.str "say hi")])⟩) =
      PyVal.dict [("data", PyVal.str "ok")]
    ∧ Except.ok (PyVal.str "ok") ≠
      (Except.ok (PyVal.dict [("data", PyVal.str "ok")]) : Except Err PyVal) :=
  ⟨rfl, rfl, by simp⟩

/-- Claim C6 as amended: start, stop and restart return the decoded wire
reply passed through as-is without unwrapping, while command unwraps the
data envelope of its decoded reply before returning it. -/
theorem C6_amended (t : Transport) (id cmd : String) :
    (start t id).1 =
      Except.ok (decodeResp (t ⟨"post", "servers/" ++ id ++ "/start",
        Option.none⟩))
    ∧ (stop t id).1 =
      Except.ok (decodeResp (t ⟨"post", "servers/" ++ id ++ "/stop",
        Option.none⟩))
    ∧ (restart t id).1 =
      Except.ok (decodeResp (t ⟨"post", "servers/" ++ id ++ "/restart",
        Option.none⟩))
    ∧ (∀ kvs d,
        decodeResp (t ⟨"post", "servers/" ++ id ++ "/command",
          some (Json.obj [("command", Json.str cmd)])⟩) = PyVal.dict kvs →
        kvs.lookup "data" = some d →
        (command t id cmd).1 = Except.ok d) := by
  refine ⟨rfl, rfl, rfl, ?_⟩
  intro kvs d h1 h2
  simp only [command, _make_request, h1]
  show pyIndex (PyVal.dict kvs) "data" = Except.ok d
  simp [pyIndex, h2]

/-- Claim C6, witness for the amended theorem: with the concrete command
transport, start passes its decoded reply through and command returns the
value under the data key. -/
theorem C6_amended_witness :
    (start tCmd "srv1").1 =
      Except.ok (decodeResp (tCmd ⟨"post", "servers/" ++ "srv1" ++ "/start",
        Option.none⟩))
    ∧ (command tCmd "srv1" "say hi").1 = Except.ok (PyVal.str "ok") :=
  ⟨(C6_amended tCmd "srv1" "say hi").1,
   (C6_amended tCmd "srv1" "say hi").2.2.2 [("data", PyVal.str "ok")]
     (PyVal.str "ok") rfl rfl⟩

/-- Claim C8: on the concrete wire payload of the specification example,
get_server for abc123 yields a Server whose status is the label Online,
whose players count is 3 and whose software name is Vanilla. -/
theorem C8_example :
    (okValue (get_server t8 "abc123").1).bind
        (fun s => pyGetAttr s "status") = some (PyVal.str "Online")
    ∧ ((okValue (get_server t8 "abc123").1).bind
        (fun s => pyGetAttr s "players")).bind
        (fun p => pyGetAttr p "count") = some (PyVal.int 3)
    ∧ ((okValue (get_server t8 "abc123").1).bind
        (fun s => pyGetAttr s "software")).bind
        (fun p => pyGetAttr p "name") = some (PyVal.str "Vanilla") :=
  ⟨rfl, rfl, rfl⟩

/-- Helper lemma: the unfolding equation of the rendering on a class
instance. -/
theorem render_obj_eq (cls : String) (attrs : List (String × PyVal)) :
    render (PyVal.obj cls attrs) =
      Json.obj (("_", Json.str cls) :: renderObjFields attrs) :=
  rfl

/-- Helper lemma: whenever every attribute with a given non-marker key
has a None value, the rendering of the instance holds no entry under that
key. -/
theorem countKey_render_obj_eq_zero (cls k : String)
    (attrs : List (String × PyVal))
    (hall : ∀ p ∈ attrs, p.1 = k → isNoneVal p.2 = true)
    (hmarker : (("_" : String) == k) = false) :
    countKey (render (PyVal.obj cls attrs)) k = 0 := by
  have h0 := renderObjFields_filter_eq_nil k attrs hall
  show ((("_", Json.str cls) :: renderObjFields attrs).filter
    (fun kv => kv.1 == k)).length = 0
  simp [List.filter_cons, hmarker, h0]

/-- Claim C7: for every instance, the human-readable rendering contains
each attribute with a non-underscore name and a non-None value exactly
once, under its own key and with its uniformly rendered value; it omits
every attribute whose value is None; a bytes value is rendered as its
quoted Python repr rather than decoded text; and a list is rendered
elementwise by the same rendering, so nesting recurses uniformly. -/
theorem C7_rendering (cls : String) (attrs : List (String × PyVal))
    (hnd : (attrs.map Prod.fst).Nodup) :
    (∀ k v, (k, v) ∈ attrs → pyStartsWithUnderscore k = false →
        isNoneVal v = false →
        countKey (render (PyVal.obj cls attrs)) k = 1 ∧
        (fieldsOf (render (PyVal.obj cls attrs))).lookup k = some (render v))
    ∧ (∀ k, pyStartsWithUnderscore k = false → (k, PyVal.none) ∈ attrs →
        countKey (render (PyVal.obj cls attrs)) k = 0)
    ∧ (∀ bs, render (PyVal.bytes bs) = Json.str (pyReprBytes bs) ∧
        ∃ q body, (q = 39 ∨ q = 34) ∧
          pyReprBytes bs = "b" ++ String.singleton (Char.ofNat q) ++ body ++
            String.singleton (Char.ofNat q))
    ∧ (∀ xs, render (PyVal.pylist xs) = Json.arr (renderList xs)) := by
  refine ⟨?_, ?_, ?_, fun xs => rfl⟩
  · intro k v hmem hk hv
    have h := renderObjFields_of_mem k v attrs hnd hmem hk hv
    have hm : ("_" == k) = false :=
      beq_eq_false_iff_ne.mpr (Ne.symm (ne_marker_of_not_underscore k hk))
    have hm2 : (k == "_") = false :=
      beq_eq_false_iff_ne.mpr (ne_marker_of_not_underscore k hk)
    constructor
    · show ((("_", Json.str cls) :: renderObjFields attrs).filter
        (fun kv => kv.1 == k)).length = 1
      simp [List.filter_cons, hm, h.1]
    · show (("_", Json.str cls) :: renderObjFields attrs).lookup k =
        some (render v)
      simp [List.lookup, hm2, h.2]
  · intro k hk hmem
    have hall : ∀ p ∈ attrs, p.1 = k → isNoneVal p.2 = true := by
      intro p hp hpk
      have := attr_value_unique k PyVal.none p attrs hnd hmem hp hpk
      rw [this]
      rfl
    have h := renderObjFields_filter_eq_nil k attrs hall
    have hm : ("_" == k) = false :=
      beq_eq_false_iff_ne.mpr (Ne.symm (ne_marker_of_not_underscore k hk))
    show ((("_", Json.str cls) :: renderObjFields attrs).filter
      (fun kv => kv.1 == k)).length = 0
    simp [List.filter_cons, hm, h]
  · intro bs
    refine ⟨rfl, ?_⟩
    by_cases hq : 39 ∈ bs ∧ 34 ∉ bs
    · exact ⟨34, String.join (bs.map (byteEscape 34)), Or.inr rfl,
        by simp [pyReprBytes, hq.1, hq.2]⟩
    · exact ⟨39, String.join (bs.map (byteEscape 39)), Or.inl rfl,
        by simp [pyReprBytes, hq]⟩

/-- Claim C7, witness: the rendering theorem applied to a concrete
instance with a string field, an absent field and a bytes field. -/
theorem C7_rendering_witness :
    countKey (render (PyVal.obj "Account"
      [("name", PyVal.str "n"), ("email", PyVal.none),
       ("blob", PyVal.bytes [65])])) "name" = 1
    ∧ countKey (render (PyVal.obj "Account"
      [("name", PyVal.str "n"), ("email", PyVal.none),
       ("blob", PyVal.bytes [65])])) "email" = 0 :=
  ⟨((C7_rendering "Account"
      [("name", PyVal.str "n"), ("email", PyVal.none),
       ("blob", PyVal.bytes [65])] (by decide)).1
      "name" (PyVal.str "n") (by simp) rfl rfl).1,
   (C7_rendering "Account"
      [("name", PyVal.str "n"), ("email", PyVal.none),
       ("blob", PyVal.bytes [65])] (by decide)).2.1
      "email" rfl (by simp)⟩

/-- Claim C9: the rendering of every instance carries, before its fields,
an extra entry keyed with a single underscore holding the class name, and
the same marker appears in the rendering of a nested instance. -/
theorem C9_marker :
    (∀ cls attrs, ∃ rest, render (PyVal.obj cls attrs) =
        Json.obj (("_", Json.str cls) :: rest))
    ∧ (∀ cls k cls2 attrs2, pyStartsWithUnderscore k = false →
        ∃ rest2, render (PyVal.obj cls [(k, PyVal.obj cls2 attrs2)]) =
          Json.obj [("_", Json.str cls),
                    (k, Json.obj (("_", Json.str cls2) :: rest2))]) := by
  constructor
  · intro cls attrs
    exact ⟨renderObjFields attrs, rfl⟩
  · intro cls k cls2 attrs2 hk
    refine ⟨renderObjFields attrs2, ?_⟩
    show Json.obj (("_", Json.str cls) ::
      renderObjFields [(k, PyVal.obj cls2 attrs2)]) = _
    simp [renderObjFields, hk, isNoneVal, render_obj_eq]

/-- Claim C9, witness: the marker theorem applied to a Server instance
holding a nested Players instance. -/
theorem C9_marker_witness :
    ∃ rest2, render (PyVal.obj "Server"
        [("players", PyVal.obj "Players" [("count", PyVal.int 3)])]) =
      Json.obj [("_", Json.str "Server"),
                ("players", Json.obj (("_", Json.str "Players") :: rest2))] :=
  C9_marker.2 "Server" "players" "Players" [("count", PyVal.int 3)] rfl

/-- Claim C10: a well-formed Server payload whose integer status code has
no entry in the fixed table produces a Server whose status attribute is
None, and the rendering of that Server contains no status entry at
all. -/
theorem C10_unknown_status (n : Int)
    (id name address motd host port : PyVal)
    (pmax pcount plist sid sname sversion shared : PyVal)
    (h : specStatusLabel n = Option.none) :
    ∃ s, serverNew (mkServerPayload id name address motd (PyVal.int n) host
        port pmax pcount plist sid sname sversion shared) = Except.ok s
      ∧ pyGetAttr s "status" = some PyVal.none
      ∧ countKey (render s) "status" = 0 := by
  have hs : statusLookup n = Option.none := by
    rw [statusLookup_eq_spec]
    exact h
  have hsm : (match statusLookup n with
      | some label => PyVal.str label
      | Option.none => PyVal.none) = PyVal.none := by rw [hs]
  refine ⟨PyVal.obj "Server"
    [("id", id), ("name", name), ("address", address), ("motd", motd),
     ("status", PyVal.none), ("host", host), ("port", port),
     ("players", PyVal.obj "Players"
       [("max", pmax), ("count", pcount), ("list", plist)]),
     ("software", PyVal.obj "Software"
       [("id", sid), ("name", sname), ("version", sversion)]),
     ("shared", shared)], ?_, rfl, ?_⟩
  · rw [← hsm]
    rfl
  · refine countKey_render_obj_eq_zero "Server" "status" _ ?_ (by decide)
    intro p hp hpk
    simp only [List.mem_cons, List.not_mem_nil, or_false] at hp
    rcases hp with rfl|rfl|rfl|rfl|rfl|rfl|rfl|rfl|rfl|rfl <;>
      first
      | rfl
      | simp at hpk

/-- Claim C10, witness: the out-of-table theorem applied at the concrete
status code 9 on a concrete payload. -/
theorem C10_unknown_status_witness :
    ∃ s, serverNew (mkServerPayload (PyVal.str "i") (PyVal.str "n")
        (PyVal.str "a") (PyVal.str "m") (PyVal.int 9) (PyVal.str "h")
        (PyVal.int 1) (PyVal.int 10) (PyVal.int 0) (PyVal.pylist [])
        (PyVal.str "v") (PyVal.str "V") (PyVal.str "1")
        (PyVal.bool false)) = Except.ok s
      ∧ pyGetAttr s "status" = some PyVal.none
      ∧ countKey (render s) "status" = 0 :=
  C10_unknown_status 9 (PyVal.str "i") (PyVal.str "n") (PyVal.str "a")
    (PyVal.str "m") (PyVal.str "h") (PyVal.int 1) (PyVal.int 10)
    (PyVal.int 0) (PyVal.pylist []) (PyVal.str "v") (PyVal.str "V")
    (PyVal.str "1") (PyVal.bool false) (by decide)

end Exaroton
